import Mathlib

/-!
# XWord preferences panels

A shallow embedding of `src/dialogs/PreferencesPanel.cpp`.  The widgets a panel
owns become the fields of a record; an event handler or a `DoLoadConfig` /
`DoSaveConfig` method becomes a function from the old panel or configuration
to the new one.

Values of the C++ types `int` and `long` are modelled by `Int`, and the
operators `&` and `|` by `Int.land` and `Int.lor`, which are the
two's-complement operations.  The panels only combine flags with `|`, test
them with `&` and compare with zero, so no operation leaves the range of its
operands.  The grid-style flags are enumerators declared in `XGridCtrl.hpp`;
they are parameters of the model (`GridStyle`).  A selection is the `int` that
`GetSelection` returns; a property that concerns the items of a control says
which selections it ranges over.
-/

namespace XWord

/-! ## Widgets -/

/-- A check box: its checked value and whether it reacts to the user. -/
structure wxCheckBox where
  value : Bool
  enabled : Bool
deriving DecidableEq, Repr

/-- A single-selection control (radio box or choice): the index of the
selected item, as returned by `GetSelection`. -/
structure wxChoice where
  selection : Int
  enabled : Bool
deriving DecidableEq, Repr

/-- A spin control holding an integer. -/
structure wxSpinCtrl where
  value : Int
  enabled : Bool
deriving DecidableEq, Repr

/-- A slider holding an integer position. -/
structure wxSlider where
  value : Int
  enabled : Bool
deriving DecidableEq, Repr

/-- A colour; each channel is an `unsigned char`. -/
structure wxColour where
  red : Int
  green : Int
  blue : Int
deriving DecidableEq, Repr

/-- A font value, identified by its description. -/
structure wxFont where
  desc : String
deriving DecidableEq, Repr

/-- A plain window of which only the background colour matters. -/
structure wxWindow where
  backgroundColour : wxColour
  enabled : Bool
deriving DecidableEq, Repr

/-- A font picker: the selected font and whether it reacts to the user. -/
structure FontPickerPanel where
  selectedFont : wxFont
  enabled : Bool
deriving DecidableEq, Repr

/-- A command event; `IsChecked` and `GetInt` read `m_commandInt`. -/
structure wxCommandEvent where
  m_commandInt : Int
deriving DecidableEq, Repr

/-- A scroll event carrying the new position. -/
structure wxScrollEvent where
  m_commandInt : Int
deriving DecidableEq, Repr

/-- A book-control event: the new and the old selection. -/
structure wxBookCtrlEvent where
  m_nSel : Int
  m_nOldSel : Int
deriving DecidableEq, Repr

namespace wxCheckBox

def SetValue (c : wxCheckBox) (v : Bool) : wxCheckBox := { c with value := v }

def GetValue (c : wxCheckBox) : Bool := c.value

def IsChecked (c : wxCheckBox) : Bool := c.value

def Enable (c : wxCheckBox) (e : Bool) : wxCheckBox := { c with enabled := e }

end wxCheckBox

namespace wxChoice

def SetSelection (c : wxChoice) (n : Int) : wxChoice := { c with selection := n }

def GetSelection (c : wxChoice) : Int := c.selection

end wxChoice

namespace wxSpinCtrl

def SetValue (c : wxSpinCtrl) (v : Int) : wxSpinCtrl := { c with value := v }

def GetValue (c : wxSpinCtrl) : Int := c.value

end wxSpinCtrl

namespace wxSlider

def SetValue (c : wxSlider) (v : Int) : wxSlider := { c with value := v }

def GetValue (c : wxSlider) : Int := c.value

end wxSlider

namespace wxColour

/-- The constructor `wxColour(r, g, b)`: each argument is converted to
`unsigned char`. -/
def ofRGB (r g b : Int) : wxColour := ⟨r % 256, g % 256, b % 256⟩

end wxColour

namespace wxWindow

def SetBackgroundColour (w : wxWindow) (c : wxColour) : wxWindow :=
  { w with backgroundColour := c }

end wxWindow

namespace FontPickerPanel

def SetSelectedFont (c : FontPickerPanel) (f : wxFont) : FontPickerPanel :=
  { c with selectedFont := f }

def GetSelectedFont (c : FontPickerPanel) : wxFont := c.selectedFont

def Enable (c : FontPickerPanel) (e : Bool) : FontPickerPanel := { c with enabled := e }

end FontPickerPanel

namespace wxCommandEvent

def IsChecked (evt : wxCommandEvent) : Bool := decide (evt.m_commandInt ≠ 0)

def GetInt (evt : wxCommandEvent) : Int := evt.m_commandInt

end wxCommandEvent

namespace wxScrollEvent

def GetPosition (evt : wxScrollEvent) : Int := evt.m_commandInt

end wxScrollEvent

/-! ## Toolkit constants -/

/-- The wxWidgets alignment value `wxALIGN_TOP`. -/
def wxALIGN_TOP : Int := 0

/-- The wxWidgets alignment value `wxALIGN_LEFT`. -/
def wxALIGN_LEFT : Int := 0

/-- The wxWidgets alignment value `wxALIGN_RIGHT`. -/
def wxALIGN_RIGHT : Int := 0x200

/-- The wxWidgets alignment value `wxALIGN_BOTTOM`. -/
def wxALIGN_BOTTOM : Int := 0x400

/-- The value `wxNOT_FOUND` returned when a book control has no selection. -/
def wxNOT_FOUND : Int := -1

/-! ## Grid style flags and the configuration -/

/-- The grid-style enumerators used by the solve panel (declared in
`XGridCtrl.hpp`). -/
structure GridStyle where
  MOVE_AFTER_LETTER : Int
  MOVE_TO_NEXT_BLANK : Int
  BLANK_ON_DIRECTION : Int
  BLANK_ON_NEW_WORD : Int
  PAUSE_ON_SWITCH : Int
  MOVE_ON_RIGHT_CLICK : Int
  CHECK_WHILE_TYPING : Int
  STRICT_REBUS : Int
deriving DecidableEq, Repr

namespace ConfigManager

/-- The group `m_config.Grid`. -/
structure Grid_t where
  style : Int
deriving DecidableEq, Repr

/-- The group `m_config.Timer`. -/
structure Timer_t where
  autoStart : Bool
deriving DecidableEq, Repr

/-- The group `m_config.FileHistory`. -/
structure FileHistory_t where
  saveFileHistory : Bool
  reopenLastPuzzle : Bool
deriving DecidableEq, Repr

/-- The group `m_config.Printing.Fonts`. -/
structure Fonts_t where
  useCustomFonts : Bool
  gridLetterFont : wxFont
  gridNumberFont : wxFont
  clueFont : wxFont
deriving DecidableEq, Repr

/-- The group `m_config.Printing`. -/
structure Printing_t where
  blackSquareBrightness : Int
  gridAlignment : Int
  Fonts : Fonts_t
deriving DecidableEq, Repr

end ConfigManager

/-- The settings of the configuration manager that the solve, startup and
print panels read and write. -/
structure ConfigManager where
  Grid : ConfigManager.Grid_t
  Timer : ConfigManager.Timer_t
  autoSaveInterval : Int
  FileHistory : ConfigManager.FileHistory_t
  Printing : ConfigManager.Printing_t
deriving DecidableEq, Repr

/-! ## SolvePanel -/

/-- The controls of the solve panel. -/
structure SolvePanel where
  m_afterLetter : wxChoice
  m_blankOnDirection : wxCheckBox
  m_blankOnNewWord : wxCheckBox
  m_pauseOnSwitch : wxChoice
  m_moveOnRightClick : wxCheckBox
  m_checkWhileTyping : wxCheckBox
  m_strictRebus : wxCheckBox
  m_startTimer : wxCheckBox
deriving DecidableEq, Repr

/-- The C++ conversion of a `bool` to `int`. -/
def boolToInt (b : Bool) : Int := if b then 1 else 0

/-- The statement `if (c) gridStyle |= flag;`. -/
def orIf (c : Bool) (gridStyle flag : Int) : Int :=
  if c then Int.lor gridStyle flag else gridStyle

namespace SolvePanel

/-- `SolvePanel::DoLoadConfig`. -/
def DoLoadConfig (F : GridStyle) (m_config : ConfigManager) (p : SolvePanel) : SolvePanel :=
  let gridStyle : Int := m_config.Grid.style
  let p : SolvePanel :=
    if Int.land gridStyle F.MOVE_AFTER_LETTER ≠ 0 then
      if Int.land gridStyle F.MOVE_TO_NEXT_BLANK ≠ 0 then
        { p with m_afterLetter := p.m_afterLetter.SetSelection 2 }
      else
        { p with m_afterLetter := p.m_afterLetter.SetSelection 1 }
    else
      { p with m_afterLetter := p.m_afterLetter.SetSelection 0 }
  let p := { p with m_blankOnDirection :=
    p.m_blankOnDirection.SetValue (decide (Int.land gridStyle F.BLANK_ON_DIRECTION ≠ 0)) }
  let p := { p with m_blankOnNewWord :=
    p.m_blankOnNewWord.SetValue (decide (Int.land gridStyle F.BLANK_ON_NEW_WORD ≠ 0)) }
  let p := { p with m_pauseOnSwitch :=
    p.m_pauseOnSwitch.SetSelection (boolToInt (decide (Int.land gridStyle F.PAUSE_ON_SWITCH ≠ 0))) }
  let p := { p with m_moveOnRightClick :=
    p.m_moveOnRightClick.SetValue (decide (Int.land gridStyle F.MOVE_ON_RIGHT_CLICK ≠ 0)) }
  let p := { p with m_checkWhileTyping :=
    p.m_checkWhileTyping.SetValue (decide (Int.land gridStyle F.CHECK_WHILE_TYPING ≠ 0)) }
  let p := { p with m_strictRebus :=
    p.m_strictRebus.SetValue (decide (Int.land gridStyle F.STRICT_REBUS ≠ 0)) }
  { p with m_startTimer := p.m_startTimer.SetValue m_config.Timer.autoStart }

/-- The `switch` on the move-after-letter selection in `DoSaveConfig`:
case 2 sets `MOVE_TO_NEXT_BLANK` and falls through to case 1, which sets
`MOVE_AFTER_LETTER`; any other selection sets nothing. -/
def afterLetterStyle (F : GridStyle) (gridStyle : Int) (selection : Int) : Int :=
  if selection = 2 then
    Int.lor (Int.lor gridStyle F.MOVE_TO_NEXT_BLANK) F.MOVE_AFTER_LETTER
  else if selection = 1 then
    Int.lor gridStyle F.MOVE_AFTER_LETTER
  else
    gridStyle

/-- `SolvePanel::DoSaveConfig`. -/
def DoSaveConfig (F : GridStyle) (p : SolvePanel) (m_config : ConfigManager) : ConfigManager :=
  let gridStyle : Int := 0
  let gridStyle := afterLetterStyle F gridStyle p.m_afterLetter.GetSelection
  let gridStyle := orIf p.m_blankOnDirection.GetValue gridStyle F.BLANK_ON_DIRECTION
  let gridStyle := orIf p.m_blankOnNewWord.GetValue gridStyle F.BLANK_ON_NEW_WORD
  let gridStyle :=
    orIf (decide (p.m_pauseOnSwitch.GetSelection = 1)) gridStyle F.PAUSE_ON_SWITCH
  let gridStyle := orIf p.m_moveOnRightClick.GetValue gridStyle F.MOVE_ON_RIGHT_CLICK
  let gridStyle := orIf p.m_checkWhileTyping.GetValue gridStyle F.CHECK_WHILE_TYPING
  let gridStyle := orIf p.m_strictRebus.GetValue gridStyle F.STRICT_REBUS
  let m_config := { m_config with Grid := { m_config.Grid with style := gridStyle } }
  { m_config with Timer := { m_config.Timer with autoStart := p.m_startTimer.GetValue } }

end SolvePanel

/-! ## StartupPanel -/

/-- The controls of the startup panel. -/
structure StartupPanel where
  m_autoSave : wxSpinCtrl
  m_saveFileHistory : wxCheckBox
  m_reopenLastPuzzle : wxCheckBox
deriving DecidableEq, Repr

namespace StartupPanel

/-- `StartupPanel::DoLoadConfig`. -/
def DoLoadConfig (m_config : ConfigManager) (p : StartupPanel) : StartupPanel :=
  let p := { p with m_autoSave := p.m_autoSave.SetValue m_config.autoSaveInterval }
  let p := { p with m_saveFileHistory :=
    p.m_saveFileHistory.SetValue m_config.FileHistory.saveFileHistory }
  let p := { p with m_reopenLastPuzzle :=
    p.m_reopenLastPuzzle.SetValue m_config.FileHistory.reopenLastPuzzle }
  { p with m_reopenLastPuzzle := p.m_reopenLastPuzzle.Enable p.m_saveFileHistory.GetValue }

/-- `StartupPanel::DoSaveConfig`. -/
def DoSaveConfig (p : StartupPanel) (m_config : ConfigManager) : ConfigManager :=
  let m_config := { m_config with autoSaveInterval := p.m_autoSave.GetValue }
  let m_config := { m_config with FileHistory :=
    { m_config.FileHistory with saveFileHistory := p.m_saveFileHistory.IsChecked } }
  { m_config with FileHistory :=
    { m_config.FileHistory with reopenLastPuzzle := p.m_reopenLastPuzzle.IsChecked } }

/-- `StartupPanel::OnSaveFileHistory`. -/
def OnSaveFileHistory (evt : wxCommandEvent) (p : StartupPanel) : StartupPanel :=
  { p with m_reopenLastPuzzle := p.m_reopenLastPuzzle.Enable evt.IsChecked }

end StartupPanel

/-! ## PrintPanel -/

/-- The controls of the print panel. -/
structure PrintPanel where
  m_printBlackSquareBrightness : wxSlider
  m_printBlackSquarePreview : wxWindow
  m_printGridAlignment : wxChoice
  m_printCustomFonts : wxCheckBox
  m_printGridLetterFont : FontPickerPanel
  m_printGridNumberFont : FontPickerPanel
  m_printClueFont : FontPickerPanel
deriving DecidableEq, Repr

namespace PrintPanel

/-- The `switch` on the stored grid alignment in `DoLoadConfig`: the
selection passed to `m_printGridAlignment->SetSelection`. -/
def alignmentSelection (gridAlignment : Int) : Int :=
  if gridAlignment = Int.lor wxALIGN_TOP wxALIGN_LEFT then 0
  else if gridAlignment = Int.lor wxALIGN_TOP wxALIGN_RIGHT then 1
  else if gridAlignment = Int.lor wxALIGN_BOTTOM wxALIGN_LEFT then 2
  else if gridAlignment = Int.lor wxALIGN_BOTTOM wxALIGN_RIGHT then 3
  else 1

/-- `PrintPanel::DoLoadConfig`. -/
def DoLoadConfig (m_config : ConfigManager) (p : PrintPanel) : PrintPanel :=
  let printing := m_config.Printing
  let brightness : Int := printing.blackSquareBrightness
  let p := { p with m_printBlackSquareBrightness :=
    p.m_printBlackSquareBrightness.SetValue brightness }
  let p := { p with m_printBlackSquarePreview :=
    p.m_printBlackSquarePreview.SetBackgroundColour (wxColour.ofRGB brightness brightness brightness) }
  let p := { p with m_printGridAlignment :=
    p.m_printGridAlignment.SetSelection (alignmentSelection printing.gridAlignment) }
  let p := { p with m_printGridLetterFont :=
    p.m_printGridLetterFont.SetSelectedFont printing.Fonts.gridLetterFont }
  let p := { p with m_printGridNumberFont :=
    p.m_printGridNumberFont.SetSelectedFont printing.Fonts.gridNumberFont }
  let p := { p with m_printClueFont :=
    p.m_printClueFont.SetSelectedFont printing.Fonts.clueFont }
  let customFonts : Bool := printing.Fonts.useCustomFonts
  let p := { p with m_printCustomFonts := p.m_printCustomFonts.SetValue customFonts }
  let p := { p with m_printGridLetterFont := p.m_printGridLetterFont.Enable customFonts }
  let p := { p with m_printGridNumberFont := p.m_printGridNumberFont.Enable customFonts }
  { p with m_printClueFont := p.m_printClueFont.Enable customFonts }

/-- The local table `alignments` of `DoSaveConfig`. -/
def alignments : List Int :=
  [Int.lor wxALIGN_TOP wxALIGN_LEFT,
   Int.lor wxALIGN_TOP wxALIGN_RIGHT,
   Int.lor wxALIGN_BOTTOM wxALIGN_LEFT,
   Int.lor wxALIGN_BOTTOM wxALIGN_RIGHT]

/-- The array read `alignments[i]`; an index outside the table has no
defined result. -/
def alignmentAt (i : Int) : Option Int :=
  if 0 ≤ i then alignments[i.toNat]? else none

/-- `PrintPanel::DoSaveConfig`.  The result is `none` when the table
`alignments` is read outside its four entries. -/
def DoSaveConfig (p : PrintPanel) (m_config : ConfigManager) : Option ConfigManager :=
  let printing := m_config.Printing
  let printing :=
    { printing with blackSquareBrightness := p.m_printBlackSquareBrightness.GetValue }
  match alignmentAt p.m_printGridAlignment.GetSelection with
  | none => none
  | some alignment =>
    let printing := { printing with gridAlignment := alignment }
    let printing := { printing with Fonts :=
      { printing.Fonts with useCustomFonts := p.m_printCustomFonts.IsChecked } }
    let printing := { printing with Fonts :=
      { printing.Fonts with gridLetterFont := p.m_printGridLetterFont.GetSelectedFont } }
    let printing := { printing with Fonts :=
      { printing.Fonts with gridNumberFont := p.m_printGridNumberFont.GetSelectedFont } }
    let printing := { printing with Fonts :=
      { printing.Fonts with clueFont := p.m_printClueFont.GetSelectedFont } }
    some { m_config with Printing := printing }

/-- `PrintPanel::OnPrintCustomFonts`. -/
def OnPrintCustomFonts (evt : wxCommandEvent) (p : PrintPanel) : PrintPanel :=
  let customFonts : Bool := evt.IsChecked
  let p := { p with m_printGridLetterFont := p.m_printGridLetterFont.Enable customFonts }
  let p := { p with m_printGridNumberFont := p.m_printGridNumberFont.Enable customFonts }
  { p with m_printClueFont := p.m_printClueFont.Enable customFonts }

/-- `PrintPanel::OnBlackSquareBrightness`. -/
def OnBlackSquareBrightness (evt : wxScrollEvent) (p : PrintPanel) : PrintPanel :=
  let value : Int := evt.GetPosition
  { p with m_printBlackSquarePreview :=
    p.m_printBlackSquarePreview.SetBackgroundColour (wxColour.ofRGB value value value) }

end PrintPanel

/-! ## AppearancePanel -/

/-- Modelled from the spec: the page classes are declared in `TreePanels.hpp`.
A page window is either a panel derived from `AppearanceBase`, on which
`dynamic_cast<AppearanceBase *>` succeeds and which has a "load configuration"
operation, or some other window such as a `wxStaticText`.  The type `V` is the
state of an appearance panel. -/
inductive PageWindow (V : Type) where
  | appearanceBase (panel : V)
  | staticText (label : String)
deriving DecidableEq, Repr

/-- A page of the treebook: its window and its text in the tree. -/
structure TreebookPage (V : Type) where
  window : PageWindow V
  text : String
deriving DecidableEq, Repr

/-- The treebook: its pages in insertion order and the selected page, which
is `wxNOT_FOUND` when there is none. -/
structure MyTreebook (V : Type) where
  m_pages : List (TreebookPage V)
  m_selection : Int
deriving DecidableEq, Repr

namespace MyTreebook

def AddPage {V : Type} (tb : MyTreebook V) (page : PageWindow V) (text : String) :
    MyTreebook V :=
  { tb with m_pages := tb.m_pages ++ [⟨page, text⟩] }

def AddSubPage {V : Type} (tb : MyTreebook V) (page : PageWindow V) (text : String) :
    MyTreebook V :=
  { tb with m_pages := tb.m_pages ++ [⟨page, text⟩] }

def SetSelection {V : Type} (tb : MyTreebook V) (n : Int) : MyTreebook V :=
  { tb with m_selection := n }

/-- The window of the selected page, `none` standing for the null pointer. -/
def GetCurrentPage {V : Type} (tb : MyTreebook V) : Option (PageWindow V) :=
  if tb.m_selection < 0 then none
  else tb.m_pages[tb.m_selection.toNat]?.map (fun page => page.window)

end MyTreebook

/-- The appearance panel: the treebook it owns. -/
structure AppearancePanel (V : Type) where
  m_treebook : MyTreebook V
deriving DecidableEq, Repr

namespace AppearancePanel

/-- The name under which a metadata page is added: the part after
`/Metadata/` when the name starts with it. -/
def metadataPageName (m_name : String) : String :=
  if m_name.startsWith "/Metadata/" then m_name.drop 10 else m_name

/-- The pages added by `AppearancePanel::SetupTree`, in order.  `create cls`
is the panel constructed for the class `cls`; `metadata` lists the names of
the metadata controls.  The final `UpdateLayout` selects page 0. -/
def SetupTree {V : Type} (create : String → V) (metadata : List String) : AppearancePanel V :=
  let m_treebook : MyTreebook V := ⟨[], wxNOT_FOUND⟩
  let m_treebook := m_treebook.AddPage (.appearanceBase (create "GlobalAppearance")) "Global Styles"
  let m_treebook := m_treebook.AddPage (.appearanceBase (create "GridBaseAppearance")) "Grid"
  let m_treebook := m_treebook.AddSubPage (.appearanceBase (create "GridSelectionAppearance")) "Cursor/Selection"
  let m_treebook := m_treebook.AddSubPage (.appearanceBase (create "GridTweaksAppearance")) "DisplayTweaks"
  let m_treebook := m_treebook.AddPage (.appearanceBase (create "ClueListAppearance")) "Clue List"
  let m_treebook := m_treebook.AddSubPage (.appearanceBase (create "ClueListSelectionAppearance")) "Selected Clue"
  let m_treebook := m_treebook.AddSubPage (.appearanceBase (create "ClueListCrossingAppearance")) "Crossing Clue"
  let m_treebook := m_treebook.AddSubPage (.appearanceBase (create "ClueListHeadingAppearance")) "Heading"
  let m_treebook := m_treebook.AddPage (.appearanceBase (create "CluePromptAppearance")) "Clue Prompt"
  let m_treebook := m_treebook.AddPage (.staticText "Select a sub-item") "Metadata"
  let m_treebook := m_treebook.AddSubPage (.appearanceBase (create "NotesAppearance")) "Notes"
  let m_treebook := metadata.foldl
    (fun tb m_name =>
      tb.AddSubPage (.appearanceBase (create "MetadataAppearance")) (metadataPageName m_name))
    m_treebook
  ⟨m_treebook.SetSelection 0⟩

/-- Replace the window of page `n`. -/
def setWindow {V : Type} (pages : List (TreebookPage V)) (n : Nat) (w : PageWindow V) :
    List (TreebookPage V) :=
  pages.modify (fun page => { page with window := w }) n

/-- `AppearancePanel::OnPageChanged`.  `LoadConfig` is the "load
configuration" operation of an appearance panel; it acts on the panel that
the current page points to. -/
def OnPageChanged {V : Type} (LoadConfig : V → V) (_evt : wxBookCtrlEvent)
    (ap : AppearancePanel V) : AppearancePanel V :=
  match ap.m_treebook.GetCurrentPage with
  | some (.appearanceBase panel) =>
    { ap with m_treebook := { ap.m_treebook with
        m_pages := setWindow ap.m_treebook.m_pages ap.m_treebook.m_selection.toNat
          (.appearanceBase (LoadConfig panel)) } }
  | _ => ap

end AppearancePanel

/-! ## Vocabulary of the properties -/

/-- Some bit of the flag `f` is set in `s`. -/
def FlagSet (s f : Int) : Prop :=
  ∃ j : Nat, Int.testBit s j = true ∧ Int.testBit f j = true

/-- A flag with exactly one bit set. -/
def SingleBit (f : Int) : Prop := ∃ i : Nat, f = 2 ^ i

namespace GridStyle

/-- The eight flags, in the order of the record. -/
def flags (F : GridStyle) : List Int :=
  [F.MOVE_AFTER_LETTER, F.MOVE_TO_NEXT_BLANK, F.BLANK_ON_DIRECTION, F.BLANK_ON_NEW_WORD,
   F.PAUSE_ON_SWITCH, F.MOVE_ON_RIGHT_CLICK, F.CHECK_WHILE_TYPING, F.STRICT_REBUS]

/-- The eight flags are pairwise distinct single bits. -/
def DistinctSingleBits (F : GridStyle) : Prop :=
  (∀ f ∈ F.flags, SingleBit f) ∧ F.flags.Pairwise (fun a b => a ≠ b)

/-- The union of the eight flags. -/
def mask (F : GridStyle) : Int :=
  F.flags.foldl Int.lor 0

end GridStyle

/-- An assignment of eight distinct single-bit flags. -/
def sampleStyle : GridStyle :=
  { PAUSE_ON_SWITCH := 0x1, BLANK_ON_NEW_WORD := 0x2, MOVE_AFTER_LETTER := 0x4,
    MOVE_TO_NEXT_BLANK := 0x8, BLANK_ON_DIRECTION := 0x10, MOVE_ON_RIGHT_CLICK := 0x40,
    CHECK_WHILE_TYPING := 0x80, STRICT_REBUS := 0x100 }

/-- A solve panel with every control selected or checked. -/
def fullPanel : SolvePanel :=
  { m_afterLetter := ⟨2, true⟩, m_blankOnDirection := ⟨true, true⟩,
    m_blankOnNewWord := ⟨true, true⟩, m_pauseOnSwitch := ⟨1, true⟩,
    m_moveOnRightClick := ⟨true, true⟩, m_checkWhileTyping := ⟨true, true⟩,
    m_strictRebus := ⟨true, true⟩, m_startTimer := ⟨true, true⟩ }

/-- A solve panel with nothing selected or checked. -/
def samplePanel : SolvePanel :=
  { m_afterLetter := ⟨0, true⟩, m_blankOnDirection := ⟨false, true⟩,
    m_blankOnNewWord := ⟨false, true⟩, m_pauseOnSwitch := ⟨0, true⟩,
    m_moveOnRightClick := ⟨false, true⟩, m_checkWhileTyping := ⟨false, true⟩,
    m_strictRebus := ⟨false, true⟩, m_startTimer := ⟨false, true⟩ }

/-- A configuration with every setting zero, false or empty. -/
def sampleConfig : ConfigManager :=
  { Grid := ⟨0⟩, Timer := ⟨false⟩, autoSaveInterval := 0, FileHistory := ⟨false, false⟩,
    Printing := ⟨0, 0, ⟨false, ⟨""⟩, ⟨""⟩, ⟨""⟩⟩⟩ }

/-- A startup panel with nothing checked. -/
def sampleStartup : StartupPanel :=
  { m_autoSave := ⟨0, true⟩, m_saveFileHistory := ⟨false, true⟩,
    m_reopenLastPuzzle := ⟨false, true⟩ }

/-- A startup panel with both check boxes checked. -/
def fullStartup : StartupPanel :=
  { m_autoSave := ⟨5, true⟩, m_saveFileHistory := ⟨true, true⟩,
    m_reopenLastPuzzle := ⟨true, true⟩ }

/-- A print panel with the last alignment selected and custom fonts checked. -/
def fullPrint : PrintPanel :=
  { m_printBlackSquareBrightness := ⟨0, true⟩, m_printBlackSquarePreview := ⟨⟨0, 0, 0⟩, true⟩,
    m_printGridAlignment := ⟨3, true⟩, m_printCustomFonts := ⟨true, true⟩,
    m_printGridLetterFont := ⟨⟨""⟩, true⟩, m_printGridNumberFont := ⟨⟨""⟩, true⟩,
    m_printClueFont := ⟨⟨""⟩, true⟩ }

/-- A print panel with the first alignment selected. -/
def samplePrint : PrintPanel :=
  { m_printBlackSquareBrightness := ⟨0, true⟩, m_printBlackSquarePreview := ⟨⟨0, 0, 0⟩, true⟩,
    m_printGridAlignment := ⟨0, true⟩, m_printCustomFonts := ⟨false, true⟩,
    m_printGridLetterFont := ⟨⟨""⟩, false⟩, m_printGridNumberFont := ⟨⟨""⟩, false⟩,
    m_printClueFont := ⟨⟨""⟩, false⟩ }

/-! ## Bit-level facts -/

theorem eq_of_testBit_eq {a b : Int} (h : ∀ j, Int.testBit a j = Int.testBit b j) : a = b := by
  have big : ∀ m n : Nat, ∃ j, Nat.testBit m j = false ∧ Nat.testBit n j = false := by
    intro m n
    refine ⟨m + n, ?_, ?_⟩
    · apply Nat.testBit_lt_two_pow
      exact lt_of_le_of_lt (Nat.le_add_right m n) (Nat.lt_two_pow _)
    · apply Nat.testBit_lt_two_pow
      exact lt_of_le_of_lt (Nat.le_add_left n m) (Nat.lt_two_pow _)
  cases a with
  | ofNat m =>
    cases b with
    | ofNat n =>
      congr 1
      exact Nat.eq_of_testBit_eq h
    | negSucc n =>
      exfalso
      obtain ⟨j, hm, hn⟩ := big m n
      have := h j
      simp only [Int.testBit] at this
      rw [hm, hn] at this
      simp at this
  | negSucc m =>
    cases b with
    | ofNat n =>
      exfalso
      obtain ⟨j, hm, hn⟩ := big m n
      have := h j
      simp only [Int.testBit] at this
      rw [hm, hn] at this
      simp at this
    | negSucc n =>
      congr 1
      apply Nat.eq_of_testBit_eq
      intro j
      have := h j
      simp only [Int.testBit] at this
      simpa using this


theorem testBit_two_pow (i j : Nat) : Int.testBit ((2 : Int) ^ i) j = decide (i = j) := by
  have h : ((2 : Int) ^ i) = (((2 : Nat) ^ i : Nat) : Int) := by push_cast; rfl
  rw [h]
  show Nat.testBit (2 ^ i) j = decide (i = j)
  rw [Nat.testBit_two_pow]

theorem testBit_zero_int (j : Nat) : Int.testBit 0 j = false := by
  show Nat.testBit 0 j = false
  simp

theorem land_two_pow (s : Int) (i : Nat) :
    Int.land s (2 ^ i) = if Int.testBit s i = true then 2 ^ i else 0 := by
  apply eq_of_testBit_eq
  intro j
  rw [Int.testBit_land, testBit_two_pow]
  by_cases hs : Int.testBit s i = true
  · rw [if_pos hs, testBit_two_pow]
    by_cases hij : i = j
    · subst hij; simp [hs]
    · simp [hij]
  · rw [if_neg hs, testBit_zero_int]
    by_cases hij : i = j
    · subst hij; simpa using hs
    · simp [hij]

theorem land_two_pow_ne_zero (s : Int) (i : Nat) :
    Int.land s (2 ^ i) ≠ 0 ↔ Int.testBit s i = true := by
  rw [land_two_pow]
  by_cases hs : Int.testBit s i = true
  · simp [hs]
  · simp [hs]

theorem land_ne_zero_iff (s f : Int) : Int.land s f ≠ 0 ↔ FlagSet s f := by
  constructor
  · intro h
    by_contra hn
    apply h
    apply eq_of_testBit_eq
    intro j
    rw [Int.testBit_land, testBit_zero_int]
    by_cases hs : Int.testBit s j = true
    · by_cases hf : Int.testBit f j = true
      · exact absurd ⟨j, hs, hf⟩ hn
      · simp [hf]
    · simp [hs]
  · rintro ⟨j, hs, hf⟩ h0
    have := congrArg (fun x => Int.testBit x j) h0
    simp only [Int.testBit_land, testBit_zero_int, hs, hf] at this
    simp at this

theorem flagSet_two_pow (s : Int) (i : Nat) : FlagSet s (2 ^ i) ↔ Int.testBit s i = true := by
  rw [← land_ne_zero_iff, land_two_pow_ne_zero]

theorem testBit_orIf (c : Bool) (g f : Int) (j : Nat) :
    Int.testBit (orIf c g f) j = (Int.testBit g j || (c && Int.testBit f j)) := by
  cases c <;> simp [orIf, Int.testBit_lor]

theorem testBit_afterLetterStyle (F : GridStyle) (g sel : Int) (j : Nat) :
    Int.testBit (SolvePanel.afterLetterStyle F g sel) j =
      (Int.testBit g j || (decide (sel = 2) && Int.testBit F.MOVE_TO_NEXT_BLANK j)
        || (decide (sel = 1 ∨ sel = 2) && Int.testBit F.MOVE_AFTER_LETTER j)) := by
  unfold SolvePanel.afterLetterStyle
  by_cases h2 : sel = 2
  · subst h2; simp [Int.testBit_lor]
  · by_cases h1 : sel = 1
    · subst h1; simp [Int.testBit_lor]
    · simp [h1, h2]

theorem testBit_save (F : GridStyle) (p : SolvePanel) (c : ConfigManager) (j : Nat) :
    Int.testBit (SolvePanel.DoSaveConfig F p c).Grid.style j =
      ((decide (p.m_afterLetter.selection = 2) && Int.testBit F.MOVE_TO_NEXT_BLANK j)
        || (decide (p.m_afterLetter.selection = 1 ∨ p.m_afterLetter.selection = 2)
              && Int.testBit F.MOVE_AFTER_LETTER j)
        || (p.m_blankOnDirection.value && Int.testBit F.BLANK_ON_DIRECTION j)
        || (p.m_blankOnNewWord.value && Int.testBit F.BLANK_ON_NEW_WORD j)
        || (decide (p.m_pauseOnSwitch.selection = 1) && Int.testBit F.PAUSE_ON_SWITCH j)
        || (p.m_moveOnRightClick.value && Int.testBit F.MOVE_ON_RIGHT_CLICK j)
        || (p.m_checkWhileTyping.value && Int.testBit F.CHECK_WHILE_TYPING j)
        || (p.m_strictRebus.value && Int.testBit F.STRICT_REBUS j)) := by
  simp only [SolvePanel.DoSaveConfig, testBit_orIf, testBit_afterLetterStyle, testBit_zero_int,
    wxCheckBox.GetValue, wxChoice.GetSelection, Bool.false_or]


theorem load_afterLetter (F : GridStyle) (c : ConfigManager) (p : SolvePanel) :
    (SolvePanel.DoLoadConfig F c p).m_afterLetter.selection =
      if Int.land c.Grid.style F.MOVE_AFTER_LETTER ≠ 0 then
        (if Int.land c.Grid.style F.MOVE_TO_NEXT_BLANK ≠ 0 then 2 else 1)
      else 0 := by
  simp only [SolvePanel.DoLoadConfig]
  split_ifs <;> rfl

theorem load_blankOnDirection (F : GridStyle) (c : ConfigManager) (p : SolvePanel) :
    (SolvePanel.DoLoadConfig F c p).m_blankOnDirection.value =
      decide (Int.land c.Grid.style F.BLANK_ON_DIRECTION ≠ 0) := rfl

theorem load_blankOnNewWord (F : GridStyle) (c : ConfigManager) (p : SolvePanel) :
    (SolvePanel.DoLoadConfig F c p).m_blankOnNewWord.value =
      decide (Int.land c.Grid.style F.BLANK_ON_NEW_WORD ≠ 0) := rfl

theorem load_pauseOnSwitch (F : GridStyle) (c : ConfigManager) (p : SolvePanel) :
    (SolvePanel.DoLoadConfig F c p).m_pauseOnSwitch.selection =
      boolToInt (decide (Int.land c.Grid.style F.PAUSE_ON_SWITCH ≠ 0)) := rfl

theorem load_moveOnRightClick (F : GridStyle) (c : ConfigManager) (p : SolvePanel) :
    (SolvePanel.DoLoadConfig F c p).m_moveOnRightClick.value =
      decide (Int.land c.Grid.style F.MOVE_ON_RIGHT_CLICK ≠ 0) := rfl

theorem load_checkWhileTyping (F : GridStyle) (c : ConfigManager) (p : SolvePanel) :
    (SolvePanel.DoLoadConfig F c p).m_checkWhileTyping.value =
      decide (Int.land c.Grid.style F.CHECK_WHILE_TYPING ≠ 0) := rfl

theorem load_strictRebus (F : GridStyle) (c : ConfigManager) (p : SolvePanel) :
    (SolvePanel.DoLoadConfig F c p).m_strictRebus.value =
      decide (Int.land c.Grid.style F.STRICT_REBUS ≠ 0) := rfl

theorem load_startTimer (F : GridStyle) (c : ConfigManager) (p : SolvePanel) :
    (SolvePanel.DoLoadConfig F c p).m_startTimer.value = c.Timer.autoStart := rfl

theorem exists_bits {F : GridStyle} (hF : F.DistinctSingleBits) :
    ∃ a b c d e f g h : Nat,
      F = ⟨2 ^ a, 2 ^ b, 2 ^ c, 2 ^ d, 2 ^ e, 2 ^ f, 2 ^ g, 2 ^ h⟩ ∧
      [a, b, c, d, e, f, g, h].Pairwise (fun x y => x ≠ y ∧ y ≠ x) := by
  obtain ⟨hs, hp⟩ := hF
  obtain ⟨F1, F2, F3, F4, F5, F6, F7, F8⟩ := F
  simp only [GridStyle.flags, List.mem_cons, List.mem_singleton, forall_eq_or_imp, forall_eq,
    List.not_mem_nil, false_imp_iff, implies_true, and_true] at hs
  obtain ⟨⟨a, rfl⟩, ⟨b, rfl⟩, ⟨c, rfl⟩, ⟨d, rfl⟩, ⟨e, rfl⟩, ⟨f, rfl⟩, ⟨g, rfl⟩, ⟨h, rfl⟩⟩ := hs
  refine ⟨a, b, c, d, e, f, g, h, rfl, ?_⟩
  simp only [GridStyle.flags, List.pairwise_cons, List.mem_cons, List.mem_singleton,
    forall_eq_or_imp, forall_eq, List.not_mem_nil, false_imp_iff, implies_true, and_true,
    List.Pairwise.nil] at hp ⊢
  have key : ∀ x y : Nat, (2 : Int) ^ x ≠ 2 ^ y → x ≠ y ∧ y ≠ x := by
    intro x y hxy
    constructor
    · rintro rfl; exact hxy rfl
    · rintro rfl; exact hxy rfl
  obtain ⟨⟨h1, h2, h3, h4, h5, h6, h7⟩, ⟨h8, h9, h10, h11, h12, h13⟩, ⟨h14, h15, h16, h17, h18⟩,
    ⟨h19, h20, h21, h22⟩, ⟨h23, h24, h25⟩, ⟨h26, h27⟩, h28⟩ := hp
  exact ⟨⟨key _ _ h1, key _ _ h2, key _ _ h3, key _ _ h4, key _ _ h5, key _ _ h6, key _ _ h7⟩,
    ⟨key _ _ h8, key _ _ h9, key _ _ h10, key _ _ h11, key _ _ h12, key _ _ h13⟩,
    ⟨key _ _ h14, key _ _ h15, key _ _ h16, key _ _ h17, key _ _ h18⟩,
    ⟨key _ _ h19, key _ _ h20, key _ _ h21, key _ _ h22⟩,
    ⟨key _ _ h23, key _ _ h24, key _ _ h25⟩, ⟨key _ _ h26, key _ _ h27⟩, key _ _ h28⟩

theorem sampleStyle_distinct : sampleStyle.DistinctSingleBits := by
  refine ⟨?_, by decide⟩
  intro f hf
  simp only [GridStyle.flags, sampleStyle, List.mem_cons, List.mem_singleton,
    List.not_mem_nil, or_false] at hf
  rcases hf with rfl | rfl | rfl | rfl | rfl | rfl | rfl | rfl
  · exact ⟨2, by norm_num⟩
  · exact ⟨3, by norm_num⟩
  · exact ⟨4, by norm_num⟩
  · exact ⟨1, by norm_num⟩
  · exact ⟨0, by norm_num⟩
  · exact ⟨6, by norm_num⟩
  · exact ⟨7, by norm_num⟩
  · exact ⟨8, by norm_num⟩

/-! ## The claims -/

theorem pairwise_bits {a b c d e f g h : Nat}
    (hp : [a, b, c, d, e, f, g, h].Pairwise (fun x y => x ≠ y ∧ y ≠ x)) :
    ((a ≠ b ∧ b ≠ a) ∧ (a ≠ c ∧ c ≠ a) ∧ (a ≠ d ∧ d ≠ a) ∧ (a ≠ e ∧ e ≠ a) ∧ (a ≠ f ∧ f ≠ a) ∧
      (a ≠ g ∧ g ≠ a) ∧ (a ≠ h ∧ h ≠ a)) ∧
    ((b ≠ c ∧ c ≠ b) ∧ (b ≠ d ∧ d ≠ b) ∧ (b ≠ e ∧ e ≠ b) ∧ (b ≠ f ∧ f ≠ b) ∧ (b ≠ g ∧ g ≠ b) ∧
      (b ≠ h ∧ h ≠ b)) ∧
    ((c ≠ d ∧ d ≠ c) ∧ (c ≠ e ∧ e ≠ c) ∧ (c ≠ f ∧ f ≠ c) ∧ (c ≠ g ∧ g ≠ c) ∧ (c ≠ h ∧ h ≠ c)) ∧
    ((d ≠ e ∧ e ≠ d) ∧ (d ≠ f ∧ f ≠ d) ∧ (d ≠ g ∧ g ≠ d) ∧ (d ≠ h ∧ h ≠ d)) ∧
    ((e ≠ f ∧ f ≠ e) ∧ (e ≠ g ∧ g ≠ e) ∧ (e ≠ h ∧ h ≠ e)) ∧
    ((f ≠ g ∧ g ≠ f) ∧ (f ≠ h ∧ h ≠ f)) ∧ (g ≠ h ∧ h ≠ g) := by
  simpa only [List.pairwise_cons, List.mem_cons, List.mem_singleton,
    forall_eq_or_imp, forall_eq, List.not_mem_nil, false_imp_iff, implies_true, and_true,
    List.Pairwise.nil] using hp

/-- Claim C1: the eight grid-style flags being pairwise distinct single bits (so
that `MOVE_AFTER_LETTER` and `MOVE_TO_NEXT_BLANK` are distinct non-zero
single-bit flags), for every selection 0, 1 or 2 of the move-after-letter
control and every state of the other controls, `DoSaveConfig` followed by
`DoLoadConfig` of the written configuration, into a panel in any state, sets the
move-after-letter selection to the selection that was saved. -/
theorem afterLetter_roundtrip (F : GridStyle) (hF : F.DistinctSingleBits)
    (p q : SolvePanel) (m_config : ConfigManager)
    (hk : p.m_afterLetter.selection = 0 ∨ p.m_afterLetter.selection = 1 ∨
      p.m_afterLetter.selection = 2) :
    (SolvePanel.DoLoadConfig F (SolvePanel.DoSaveConfig F p m_config) q).m_afterLetter.selection
      = p.m_afterLetter.selection := by
  obtain ⟨a, b, c, d, e, f, g, h, rfl, hp⟩ := exists_bits hF
  have hp := pairwise_bits hp
  rw [load_afterLetter]
  simp only [land_two_pow_ne_zero, testBit_save, testBit_two_pow]
  rcases hk with hs | hs | hs <;> simp [hs, hp]

/-- Claim C1 at the sample flags: selection 0 saved with every check box checked
and loaded into a panel that showed selection 2, and selection 1 likewise. -/
theorem afterLetter_roundtrip_witness :
    (SolvePanel.DoLoadConfig sampleStyle
      (SolvePanel.DoSaveConfig sampleStyle { fullPanel with m_afterLetter := ⟨0, true⟩ }
        sampleConfig) fullPanel).m_afterLetter.selection = 0 ∧
    (SolvePanel.DoLoadConfig sampleStyle
      (SolvePanel.DoSaveConfig sampleStyle { fullPanel with m_afterLetter := ⟨1, true⟩ }
        sampleConfig) fullPanel).m_afterLetter.selection = 1 :=
  ⟨afterLetter_roundtrip sampleStyle sampleStyle_distinct
      { fullPanel with m_afterLetter := ⟨0, true⟩ } fullPanel sampleConfig (by decide),
    afterLetter_roundtrip sampleStyle sampleStyle_distinct
      { fullPanel with m_afterLetter := ⟨1, true⟩ } fullPanel sampleConfig (by decide)⟩

/-- Claim C8: for every stored grid style, `SolvePanel::DoLoadConfig` sets the
move-after-letter selection to 0 exactly when `MOVE_AFTER_LETTER` is clear, to 1
exactly when it is set and `MOVE_TO_NEXT_BLANK` is clear, and to 2 exactly when
both are set; each of the five flag check boxes is checked exactly when its own
flag is set, and the pause-on-switch selection is 1 exactly when
`PAUSE_ON_SWITCH` is set and 0 otherwise.  Each answer depends only on the bits
of the style that lie in the flag concerned. -/
theorem load_decodes_gridStyle (F : GridStyle) (m_config : ConfigManager) (p : SolvePanel) :
    ((SolvePanel.DoLoadConfig F m_config p).m_afterLetter.selection = 0 ↔
      ¬ FlagSet m_config.Grid.style F.MOVE_AFTER_LETTER) ∧
    ((SolvePanel.DoLoadConfig F m_config p).m_afterLetter.selection = 1 ↔
      FlagSet m_config.Grid.style F.MOVE_AFTER_LETTER ∧
      ¬ FlagSet m_config.Grid.style F.MOVE_TO_NEXT_BLANK) ∧
    ((SolvePanel.DoLoadConfig F m_config p).m_afterLetter.selection = 2 ↔
      FlagSet m_config.Grid.style F.MOVE_AFTER_LETTER ∧
      FlagSet m_config.Grid.style F.MOVE_TO_NEXT_BLANK) ∧
    ((SolvePanel.DoLoadConfig F m_config p).m_blankOnDirection.value = true ↔
      FlagSet m_config.Grid.style F.BLANK_ON_DIRECTION) ∧
    ((SolvePanel.DoLoadConfig F m_config p).m_blankOnNewWord.value = true ↔
      FlagSet m_config.Grid.style F.BLANK_ON_NEW_WORD) ∧
    ((SolvePanel.DoLoadConfig F m_config p).m_moveOnRightClick.value = true ↔
      FlagSet m_config.Grid.style F.MOVE_ON_RIGHT_CLICK) ∧
    ((SolvePanel.DoLoadConfig F m_config p).m_checkWhileTyping.value = true ↔
      FlagSet m_config.Grid.style F.CHECK_WHILE_TYPING) ∧
    ((SolvePanel.DoLoadConfig F m_config p).m_strictRebus.value = true ↔
      FlagSet m_config.Grid.style F.STRICT_REBUS) ∧
    ((SolvePanel.DoLoadConfig F m_config p).m_pauseOnSwitch.selection = 1 ↔
      FlagSet m_config.Grid.style F.PAUSE_ON_SWITCH) ∧
    ((SolvePanel.DoLoadConfig F m_config p).m_pauseOnSwitch.selection = 0 ↔
      ¬ FlagSet m_config.Grid.style F.PAUSE_ON_SWITCH) := by
  simp only [← land_ne_zero_iff, load_afterLetter, load_blankOnDirection, load_blankOnNewWord,
    load_moveOnRightClick, load_checkWhileTyping, load_strictRebus, load_pauseOnSwitch,
    boolToInt, decide_eq_true_eq]
  refine ⟨?_, ?_, ?_, trivial, trivial, trivial, trivial, trivial, ?_, ?_⟩
  · by_cases h1 : Int.land m_config.Grid.style F.MOVE_AFTER_LETTER ≠ 0
    · by_cases h2 : Int.land m_config.Grid.style F.MOVE_TO_NEXT_BLANK ≠ 0
      · simp [h1, h2]
      · simp [h1, h2]
    · simp [h1]
  · by_cases h1 : Int.land m_config.Grid.style F.MOVE_AFTER_LETTER ≠ 0
    · by_cases h2 : Int.land m_config.Grid.style F.MOVE_TO_NEXT_BLANK ≠ 0
      · simp [h1, h2]
      · simp [h1, h2]
    · simp [h1]
  · by_cases h1 : Int.land m_config.Grid.style F.MOVE_AFTER_LETTER ≠ 0
    · by_cases h2 : Int.land m_config.Grid.style F.MOVE_TO_NEXT_BLANK ≠ 0
      · simp [h1, h2]
      · simp [h1, h2]
    · simp [h1]
  · by_cases h : Int.land m_config.Grid.style F.PAUSE_ON_SWITCH ≠ 0
    · simp [h]
    · simp [h]
  · by_cases h : Int.land m_config.Grid.style F.PAUSE_ON_SWITCH ≠ 0
    · simp [h]
    · simp [h]

/-- Claim C6: when the eight flags are pairwise distinct single bits, changing the
checked value of one of the check boxes "blank on direction", "blank on new
word", "move on right click", "check while typing", "strict rebus", or changing
the pause-on-switch selection between its two items 0 and 1, changes the style
written by `SolvePanel::DoSaveConfig` in exactly the bit of that control; and
changing the move-after-letter selection changes the written style only within
`MOVE_AFTER_LETTER | MOVE_TO_NEXT_BLANK`. -/
theorem save_bits_independent (F : GridStyle) (hF : F.DistinctSingleBits)
    (p : SolvePanel) (m_config : ConfigManager) (box : wxCheckBox) (choice : wxChoice) :
    (box.value ≠ p.m_blankOnDirection.value →
      Int.xor (SolvePanel.DoSaveConfig F p m_config).Grid.style
        (SolvePanel.DoSaveConfig F { p with m_blankOnDirection := box } m_config).Grid.style
        = F.BLANK_ON_DIRECTION) ∧
    (box.value ≠ p.m_blankOnNewWord.value →
      Int.xor (SolvePanel.DoSaveConfig F p m_config).Grid.style
        (SolvePanel.DoSaveConfig F { p with m_blankOnNewWord := box } m_config).Grid.style
        = F.BLANK_ON_NEW_WORD) ∧
    ((p.m_pauseOnSwitch.selection = 0 ∨ p.m_pauseOnSwitch.selection = 1) →
      (choice.selection = 0 ∨ choice.selection = 1) →
      choice.selection ≠ p.m_pauseOnSwitch.selection →
      Int.xor (SolvePanel.DoSaveConfig F p m_config).Grid.style
        (SolvePanel.DoSaveConfig F { p with m_pauseOnSwitch := choice } m_config).Grid.style
        = F.PAUSE_ON_SWITCH) ∧
    (box.value ≠ p.m_moveOnRightClick.value →
      Int.xor (SolvePanel.DoSaveConfig F p m_config).Grid.style
        (SolvePanel.DoSaveConfig F { p with m_moveOnRightClick := box } m_config).Grid.style
        = F.MOVE_ON_RIGHT_CLICK) ∧
    (box.value ≠ p.m_checkWhileTyping.value →
      Int.xor (SolvePanel.DoSaveConfig F p m_config).Grid.style
        (SolvePanel.DoSaveConfig F { p with m_checkWhileTyping := box } m_config).Grid.style
        = F.CHECK_WHILE_TYPING) ∧
    (box.value ≠ p.m_strictRebus.value →
      Int.xor (SolvePanel.DoSaveConfig F p m_config).Grid.style
        (SolvePanel.DoSaveConfig F { p with m_strictRebus := box } m_config).Grid.style
        = F.STRICT_REBUS) ∧
    Int.ldiff
      (Int.xor (SolvePanel.DoSaveConfig F p m_config).Grid.style
        (SolvePanel.DoSaveConfig F { p with m_afterLetter := choice } m_config).Grid.style)
      (Int.lor F.MOVE_AFTER_LETTER F.MOVE_TO_NEXT_BLANK) = 0 := by
  obtain ⟨a, b, c, d, e, f, g, h, rfl, hp⟩ := exists_bits hF
  have hp := pairwise_bits hp
  refine ⟨?_, ?_, ?_, ?_, ?_, ?_, ?_⟩
  · intro hv
    apply eq_of_testBit_eq
    intro j
    simp only [Int.testBit_lxor, testBit_save, testBit_two_pow]
    by_cases hj : c = j
    · subst hj
      revert hv
      cases box.value <;> cases p.m_blankOnDirection.value <;> simp [hp]
    · simp [hj]
  · intro hv
    apply eq_of_testBit_eq
    intro j
    simp only [Int.testBit_lxor, testBit_save, testBit_two_pow]
    by_cases hj : d = j
    · subst hj
      revert hv
      cases box.value <;> cases p.m_blankOnNewWord.value <;> simp [hp]
    · simp [hj]
  · intro h1 h2 hv
    apply eq_of_testBit_eq
    intro j
    simp only [Int.testBit_lxor, testBit_save, testBit_two_pow]
    by_cases hj : e = j
    · subst hj
      rcases h1 with h1 | h1 <;> rcases h2 with h2 | h2 <;> simp [h1, h2, hp] at hv ⊢
    · simp [hj]
  · intro hv
    apply eq_of_testBit_eq
    intro j
    simp only [Int.testBit_lxor, testBit_save, testBit_two_pow]
    by_cases hj : f = j
    · subst hj
      revert hv
      cases box.value <;> cases p.m_moveOnRightClick.value <;> simp [hp]
    · simp [hj]
  · intro hv
    apply eq_of_testBit_eq
    intro j
    simp only [Int.testBit_lxor, testBit_save, testBit_two_pow]
    by_cases hj : g = j
    · subst hj
      revert hv
      cases box.value <;> cases p.m_checkWhileTyping.value <;> simp [hp]
    · simp [hj]
  · intro hv
    apply eq_of_testBit_eq
    intro j
    simp only [Int.testBit_lxor, testBit_save, testBit_two_pow]
    by_cases hj : h = j
    · subst hj
      revert hv
      cases box.value <;> cases p.m_strictRebus.value <;> simp [hp]
    · simp [hj]
  · apply eq_of_testBit_eq
    intro j
    simp only [Int.testBit_ldiff, Int.testBit_lxor, Int.testBit_lor, testBit_save,
      testBit_two_pow, testBit_zero_int]
    by_cases ha : a = j
    · simp [ha]
    · by_cases hb : b = j
      · simp [hb]
      · simp [ha, hb]

theorem testBit_mask (a b c d e f g h j : Nat) :
    Int.testBit (GridStyle.mask ⟨2 ^ a, 2 ^ b, 2 ^ c, 2 ^ d, 2 ^ e, 2 ^ f, 2 ^ g, 2 ^ h⟩) j =
      (decide (a = j) || decide (b = j) || decide (c = j) || decide (d = j) || decide (e = j)
        || decide (f = j) || decide (g = j) || decide (h = j)) := by
  simp only [GridStyle.mask, GridStyle.flags, List.foldl, Int.testBit_lor, testBit_two_pow,
    testBit_zero_int, Bool.false_or]

/-- Bit `j` of the style written by Load-then-Save. -/
theorem testBit_load_save {a b c d e f g h : Nat}
    (hp : [a, b, c, d, e, f, g, h].Pairwise (fun x y => x ≠ y ∧ y ≠ x))
    (m_config m_config2 : ConfigManager) (p : SolvePanel) (j : Nat) :
    Int.testBit (SolvePanel.DoSaveConfig ⟨2 ^ a, 2 ^ b, 2 ^ c, 2 ^ d, 2 ^ e, 2 ^ f, 2 ^ g, 2 ^ h⟩
      (SolvePanel.DoLoadConfig ⟨2 ^ a, 2 ^ b, 2 ^ c, 2 ^ d, 2 ^ e, 2 ^ f, 2 ^ g, 2 ^ h⟩
        m_config p) m_config2).Grid.style j =
      (Int.testBit m_config.Grid.style j &&
        (decide (a = j) || (decide (b = j) && Int.testBit m_config.Grid.style a)
          || decide (c = j) || decide (d = j) || decide (e = j)
          || decide (f = j) || decide (g = j) || decide (h = j))) := by
  have hp := pairwise_bits hp
  simp only [testBit_save, load_afterLetter, load_blankOnDirection, load_blankOnNewWord,
    load_moveOnRightClick, load_checkWhileTyping, load_strictRebus, load_pauseOnSwitch,
    land_two_pow_ne_zero, testBit_two_pow, boolToInt]
  by_cases ha : a = j
  · subst ha
    cases hA : Int.testBit m_config.Grid.style a <;>
      cases hB : Int.testBit m_config.Grid.style b <;> simp [hp]
  by_cases hb : b = j
  · subst hb
    cases hA : Int.testBit m_config.Grid.style a <;>
      cases hB : Int.testBit m_config.Grid.style b <;> simp [hp]
  by_cases hc : c = j
  · subst hc
    cases hC : Int.testBit m_config.Grid.style c <;> simp [hp]
  by_cases hd : d = j
  · subst hd
    cases hD : Int.testBit m_config.Grid.style d <;> simp [hp]
  by_cases he : e = j
  · subst he
    cases hE : Int.testBit m_config.Grid.style e <;> simp [hp]
  by_cases hf : f = j
  · subst hf
    cases hF : Int.testBit m_config.Grid.style f <;> simp [hp]
  by_cases hg : g = j
  · subst hg
    cases hG : Int.testBit m_config.Grid.style g <;> simp [hp]
  by_cases hh : h = j
  · subst hh
    cases hH : Int.testBit m_config.Grid.style h <;> simp [hp]
  simp [ha, hb, hc, hd, he, hf, hg, hh]

/-- Claim C10: when the eight flags are pairwise distinct single bits,
`DoLoadConfig` followed by `DoSaveConfig` writes the stored style restricted to
the eight flags, with `MOVE_TO_NEXT_BLANK` also cleared when `MOVE_AFTER_LETTER`
is clear; the written style equals the stored one exactly when the stored style
has no bit outside the eight flags and `MOVE_TO_NEXT_BLANK` set implies
`MOVE_AFTER_LETTER` set; and a second Load-then-Save writes the same style
again. -/
theorem load_save_normalises (F : GridStyle) (hF : F.DistinctSingleBits)
    (m_config : ConfigManager) (p : SolvePanel) :
    (SolvePanel.DoSaveConfig F (SolvePanel.DoLoadConfig F m_config p) m_config).Grid.style =
      Int.ldiff (Int.land m_config.Grid.style F.mask)
        (if Int.land m_config.Grid.style F.MOVE_AFTER_LETTER = 0
          then F.MOVE_TO_NEXT_BLANK else 0) ∧
    ((SolvePanel.DoSaveConfig F (SolvePanel.DoLoadConfig F m_config p) m_config).Grid.style =
        m_config.Grid.style ↔
      Int.ldiff m_config.Grid.style F.mask = 0 ∧
      (FlagSet m_config.Grid.style F.MOVE_TO_NEXT_BLANK →
        FlagSet m_config.Grid.style F.MOVE_AFTER_LETTER)) ∧
    (SolvePanel.DoSaveConfig F
      (SolvePanel.DoLoadConfig F
        (SolvePanel.DoSaveConfig F (SolvePanel.DoLoadConfig F m_config p) m_config)
        (SolvePanel.DoLoadConfig F m_config p))
      (SolvePanel.DoSaveConfig F (SolvePanel.DoLoadConfig F m_config p) m_config)).Grid.style =
      (SolvePanel.DoSaveConfig F (SolvePanel.DoLoadConfig F m_config p) m_config).Grid.style := by
  obtain ⟨a, b, c, d, e, f, g, h, rfl, hp⟩ := exists_bits hF
  have hq := pairwise_bits hp
  simp only [flagSet_two_pow]
  refine ⟨?_, ?_, ?_⟩
  · apply eq_of_testBit_eq
    intro j
    rw [testBit_load_save hp]
    by_cases hA : Int.testBit m_config.Grid.style a = true
    · have h0 : ¬ Int.land m_config.Grid.style (2 ^ a) = 0 := (land_two_pow_ne_zero _ _).mpr hA
      rw [if_neg h0, Int.testBit_ldiff, Int.testBit_land, testBit_mask, testBit_zero_int]
      simp [hA]
    · have h0 : Int.land m_config.Grid.style (2 ^ a) = 0 := by
        by_contra hne
        exact hA ((land_two_pow_ne_zero _ _).mp hne)
      rw [if_pos h0, Int.testBit_ldiff, Int.testBit_land, testBit_mask, testBit_two_pow]
      have hA2 : Int.testBit m_config.Grid.style a = false := by simpa using hA
      by_cases hb : b = j
      · subst hb; simp [hA2, hq]
      · simp [hA2, hb]
  · constructor
    · intro heq
      have hbit : ∀ j, Int.testBit m_config.Grid.style j =
          (Int.testBit m_config.Grid.style j &&
            (decide (a = j) || (decide (b = j) && Int.testBit m_config.Grid.style a)
              || decide (c = j) || decide (d = j) || decide (e = j)
              || decide (f = j) || decide (g = j) || decide (h = j))) := by
        intro j
        rw [← testBit_load_save hp m_config m_config p j, heq]
      constructor
      · apply eq_of_testBit_eq
        intro j
        rw [Int.testBit_ldiff, testBit_mask, testBit_zero_int]
        have hj := hbit j
        cases hS : Int.testBit m_config.Grid.style j
        · simp
        · rw [hS] at hj
          by_cases ha : a = j
          · simp [ha]
          by_cases hb : b = j
          · simp [hb]
          by_cases hc : c = j
          · simp [hc]
          by_cases hd : d = j
          · simp [hd]
          by_cases he : e = j
          · simp [he]
          by_cases hf : f = j
          · simp [hf]
          by_cases hg : g = j
          · simp [hg]
          by_cases hh : h = j
          · simp [hh]
          simp [ha, hb, hc, hd, he, hf, hg, hh] at hj
      · intro hB
        have := hbit b
        rw [hB] at this
        simpa [hq] using this
    · rintro ⟨hout, himp⟩
      apply eq_of_testBit_eq
      intro j
      rw [testBit_load_save hp]
      have hm := congrArg (fun x => Int.testBit x j) hout
      simp only [Int.testBit_ldiff, testBit_mask, testBit_zero_int] at hm
      cases hS : Int.testBit m_config.Grid.style j
      · simp
      · rw [hS] at hm
        by_cases hb : b = j
        · subst hb
          simp [himp hS]
        · by_cases ha : a = j
          · simp [ha]
          by_cases hc : c = j
          · simp [hc]
          by_cases hd : d = j
          · simp [hd]
          by_cases he : e = j
          · simp [he]
          by_cases hf : f = j
          · simp [hf]
          by_cases hg : g = j
          · simp [hg]
          by_cases hh : h = j
          · simp [hh]
          simp [ha, hb, hc, hd, he, hf, hg, hh] at hm
  · apply eq_of_testBit_eq
    intro j
    rw [testBit_load_save hp, testBit_load_save hp, testBit_load_save hp]
    by_cases hb : b = j
    · subst hb
      simp [hq]
    · simp [hb]

/-- Claim C2: for each check box of the solve panel ("blank on direction", "blank
on new word", "move on right click", "check while typing", "strict rebus",
"start timer"), of the startup panel ("save file history", "reopen last
puzzle") and of the print panel ("custom fonts"), `DoSaveConfig` followed by
`DoLoadConfig` of the written configuration, into a panel of the same kind in
any state, sets its checked value to the one that was saved, whatever the other
controls hold; the grid-style flags are pairwise distinct single bits and the
print alignment control holds one of its four items. -/
theorem checkbox_roundtrip (F : GridStyle) (hF : F.DistinctSingleBits)
    (solve solveInto : SolvePanel) (startup startupInto : StartupPanel)
    (print printInto : PrintPanel) (m_config : ConfigManager)
    (hsel : 0 ≤ print.m_printGridAlignment.selection ∧ print.m_printGridAlignment.selection < 4) :
    ((SolvePanel.DoLoadConfig F (SolvePanel.DoSaveConfig F solve m_config) solveInto
        ).m_blankOnDirection.value = solve.m_blankOnDirection.value ∧
      (SolvePanel.DoLoadConfig F (SolvePanel.DoSaveConfig F solve m_config) solveInto
        ).m_blankOnNewWord.value = solve.m_blankOnNewWord.value ∧
      (SolvePanel.DoLoadConfig F (SolvePanel.DoSaveConfig F solve m_config) solveInto
        ).m_moveOnRightClick.value = solve.m_moveOnRightClick.value ∧
      (SolvePanel.DoLoadConfig F (SolvePanel.DoSaveConfig F solve m_config) solveInto
        ).m_checkWhileTyping.value = solve.m_checkWhileTyping.value ∧
      (SolvePanel.DoLoadConfig F (SolvePanel.DoSaveConfig F solve m_config) solveInto
        ).m_strictRebus.value = solve.m_strictRebus.value ∧
      (SolvePanel.DoLoadConfig F (SolvePanel.DoSaveConfig F solve m_config) solveInto
        ).m_startTimer.value = solve.m_startTimer.value) ∧
    ((StartupPanel.DoLoadConfig (StartupPanel.DoSaveConfig startup m_config) startupInto
        ).m_saveFileHistory.value = startup.m_saveFileHistory.value ∧
      (StartupPanel.DoLoadConfig (StartupPanel.DoSaveConfig startup m_config) startupInto
        ).m_reopenLastPuzzle.value = startup.m_reopenLastPuzzle.value) ∧
    (∃ saved, PrintPanel.DoSaveConfig print m_config = some saved ∧
      (PrintPanel.DoLoadConfig saved printInto).m_printCustomFonts.value =
        print.m_printCustomFonts.value) := by
  refine ⟨?_, ⟨rfl, rfl⟩, ?_⟩
  · obtain ⟨a, b, c1, d, e, f, g, h, rfl, hp⟩ := exists_bits hF
    have hp := pairwise_bits hp
    simp only [load_blankOnDirection, load_blankOnNewWord, load_moveOnRightClick,
      load_checkWhileTyping, load_strictRebus, load_startTimer, land_two_pow_ne_zero,
      testBit_save, testBit_two_pow]
    simp [hp, SolvePanel.DoSaveConfig, wxCheckBox.GetValue]
  · obtain ⟨h0, h4⟩ := hsel
    obtain ⟨n, hn⟩ := Int.eq_ofNat_of_zero_le h0
    have hn4 : n < 4 := by omega
    simp only [PrintPanel.DoSaveConfig, PrintPanel.alignmentAt, wxChoice.GetSelection, hn]
    interval_cases n <;> exact ⟨_, rfl, rfl⟩

/-- Claim C3: for every selection 0, 1, 2 or 3 of the print grid alignment,
`PrintPanel::DoSaveConfig` stores the entry of the table `alignments` at that
index, and `PrintPanel::DoLoadConfig` of the result, into a print panel in any
state, sets the selection to the one that was saved. -/
theorem printGridAlignment_roundtrip (print printInto : PrintPanel)
    (m_config : ConfigManager)
    (h0 : 0 ≤ print.m_printGridAlignment.selection)
    (h4 : print.m_printGridAlignment.selection < 4) :
    ∃ saved, PrintPanel.DoSaveConfig print m_config = some saved ∧
      PrintPanel.alignments[print.m_printGridAlignment.selection.toNat]? =
        some saved.Printing.gridAlignment ∧
      (PrintPanel.DoLoadConfig saved printInto).m_printGridAlignment.selection =
        print.m_printGridAlignment.selection := by
  obtain ⟨n, hn⟩ := Int.eq_ofNat_of_zero_le h0
  have hn4 : n < 4 := by omega
  simp only [PrintPanel.DoSaveConfig, PrintPanel.alignmentAt, wxChoice.GetSelection, hn]
  interval_cases n <;> exact ⟨_, rfl, rfl, rfl⟩

/-- Claim C9: for every stored grid alignment, `PrintPanel::DoLoadConfig` leaves
the alignment selection in 0..3: the index of the stored value in the table
`alignments` when it is one of the four entries, and 1 otherwise; so the read
`alignments[selection]` of a following `PrintPanel::DoSaveConfig` is inside the
table and the save has a result. -/
theorem alignment_selection_valid_after_load (m_config saveTo : ConfigManager)
    (print : PrintPanel) :
    (PrintPanel.DoLoadConfig m_config print).m_printGridAlignment.selection ∈
      ([0, 1, 2, 3] : List Int) ∧
    (PrintPanel.DoLoadConfig m_config print).m_printGridAlignment.selection =
      (if m_config.Printing.gridAlignment ∈ PrintPanel.alignments
        then (PrintPanel.alignments.indexOf m_config.Printing.gridAlignment : Int) else 1) ∧
    (PrintPanel.alignmentAt
      (PrintPanel.DoLoadConfig m_config print).m_printGridAlignment.selection).isSome = true ∧
    (PrintPanel.DoSaveConfig (PrintPanel.DoLoadConfig m_config print) saveTo).isSome = true := by
  have hsel : (PrintPanel.DoLoadConfig m_config print).m_printGridAlignment.selection =
      PrintPanel.alignmentSelection m_config.Printing.gridAlignment := rfl
  have hsave : ∀ q : PrintPanel,
      (PrintPanel.DoSaveConfig q saveTo).isSome =
        (PrintPanel.alignmentAt q.m_printGridAlignment.selection).isSome := by
    intro q
    simp only [PrintPanel.DoSaveConfig, wxChoice.GetSelection]
    cases PrintPanel.alignmentAt q.m_printGridAlignment.selection <;> rfl
  rw [hsave, hsel]
  generalize m_config.Printing.gridAlignment = a
  have h0 : Int.lor wxALIGN_TOP wxALIGN_LEFT = 0 := by decide
  have h1 : Int.lor wxALIGN_TOP wxALIGN_RIGHT = 512 := by decide
  have h2 : Int.lor wxALIGN_BOTTOM wxALIGN_LEFT = 1024 := by decide
  have h3 : Int.lor wxALIGN_BOTTOM wxALIGN_RIGHT = 1536 := by decide
  simp only [PrintPanel.alignmentSelection, PrintPanel.alignments, h0, h1, h2, h3]
  by_cases c0 : a = 0
  · subst c0; decide
  by_cases c1 : a = 512
  · subst c1; decide
  by_cases c2 : a = 1024
  · subst c2; decide
  by_cases c3 : a = 1536
  · subst c3; decide
  simp [c0, c1, c2, c3]
  decide

/-- Claim C4: after `OnSaveFileHistory` the "reopen last puzzle" check box is
enabled exactly when the event is checked and its checked value is unchanged;
after `StartupPanel::DoLoadConfig` it is enabled exactly when the stored
`saveFileHistory` is true, whatever the stored `reopenLastPuzzle` is. -/
theorem saveFileHistory_gates_reopenLastPuzzle (evt : wxCommandEvent) (p : StartupPanel)
    (m_config : ConfigManager) :
    (StartupPanel.OnSaveFileHistory evt p).m_reopenLastPuzzle.enabled = evt.IsChecked ∧
    (StartupPanel.OnSaveFileHistory evt p).m_reopenLastPuzzle.value =
      p.m_reopenLastPuzzle.value ∧
    (StartupPanel.DoLoadConfig m_config p).m_reopenLastPuzzle.enabled =
      m_config.FileHistory.saveFileHistory :=
  ⟨rfl, rfl, rfl⟩

/-- Claim C5: after `OnPrintCustomFonts` the three font pickers are enabled exactly
when the event is checked, their selected fonts are unchanged, and the
brightness slider, the preview, the alignment choice and the custom-fonts check
box are unchanged; after `PrintPanel::DoLoadConfig` the three pickers are
enabled exactly when the stored `useCustomFonts` is true. -/
theorem customFonts_enable_fontPickers (evt : wxCommandEvent) (p : PrintPanel)
    (m_config : ConfigManager) :
    ((PrintPanel.OnPrintCustomFonts evt p).m_printGridLetterFont.enabled = evt.IsChecked ∧
      (PrintPanel.OnPrintCustomFonts evt p).m_printGridNumberFont.enabled = evt.IsChecked ∧
      (PrintPanel.OnPrintCustomFonts evt p).m_printClueFont.enabled = evt.IsChecked) ∧
    ((PrintPanel.OnPrintCustomFonts evt p).m_printGridLetterFont.selectedFont =
        p.m_printGridLetterFont.selectedFont ∧
      (PrintPanel.OnPrintCustomFonts evt p).m_printGridNumberFont.selectedFont =
        p.m_printGridNumberFont.selectedFont ∧
      (PrintPanel.OnPrintCustomFonts evt p).m_printClueFont.selectedFont =
        p.m_printClueFont.selectedFont) ∧
    ((PrintPanel.OnPrintCustomFonts evt p).m_printBlackSquareBrightness =
        p.m_printBlackSquareBrightness ∧
      (PrintPanel.OnPrintCustomFonts evt p).m_printBlackSquarePreview =
        p.m_printBlackSquarePreview ∧
      (PrintPanel.OnPrintCustomFonts evt p).m_printGridAlignment = p.m_printGridAlignment ∧
      (PrintPanel.OnPrintCustomFonts evt p).m_printCustomFonts = p.m_printCustomFonts) ∧
    ((PrintPanel.DoLoadConfig m_config p).m_printGridLetterFont.enabled =
        m_config.Printing.Fonts.useCustomFonts ∧
      (PrintPanel.DoLoadConfig m_config p).m_printGridNumberFont.enabled =
        m_config.Printing.Fonts.useCustomFonts ∧
      (PrintPanel.DoLoadConfig m_config p).m_printClueFont.enabled =
        m_config.Printing.Fonts.useCustomFonts) :=
  ⟨⟨rfl, rfl, rfl⟩, ⟨rfl, rfl, rfl⟩, ⟨rfl, rfl, rfl, rfl⟩, ⟨rfl, rfl, rfl⟩⟩

theorem foldl_addSubPage_pages {V : Type} (w : PageWindow V) (name : String → String)
    (metadata : List String) (tb : MyTreebook V) :
    (metadata.foldl (fun tb m_name => tb.AddSubPage w (name m_name)) tb).m_pages =
      tb.m_pages ++ metadata.map (fun m_name => ⟨w, name m_name⟩) := by
  induction metadata generalizing tb with
  | nil => simp
  | cons m rest ih =>
    rw [List.foldl_cons, ih]
    simp [MyTreebook.AddSubPage]

/-- Claim C7: `AppearancePanel::OnPageChanged` applies the "load configuration"
operation to the panel of the current page and leaves the selection and every
other page as they were; when the current page is not an appearance panel, or
there is none, nothing changes.  In the tree built by `SetupTree` page 9, named
"Metadata", is the static text, so a change to it changes nothing. -/
theorem onPageChanged_loads_current_page {V : Type} (LoadConfig : V → V)
    (evt : wxBookCtrlEvent) (ap : AppearancePanel V) (create : String → V)
    (metadata : List String) :
    (∀ panel, ap.m_treebook.GetCurrentPage = some (PageWindow.appearanceBase panel) →
      (AppearancePanel.OnPageChanged LoadConfig evt ap).m_treebook.GetCurrentPage =
          some (PageWindow.appearanceBase (LoadConfig panel)) ∧
      (AppearancePanel.OnPageChanged LoadConfig evt ap).m_treebook.m_selection =
          ap.m_treebook.m_selection ∧
      ∀ n : Nat, (n : Int) ≠ ap.m_treebook.m_selection →
        (AppearancePanel.OnPageChanged LoadConfig evt ap).m_treebook.m_pages[n]? =
          ap.m_treebook.m_pages[n]?) ∧
    (∀ label, ap.m_treebook.GetCurrentPage = some (PageWindow.staticText label) →
      AppearancePanel.OnPageChanged LoadConfig evt ap = ap) ∧
    (ap.m_treebook.GetCurrentPage = none →
      AppearancePanel.OnPageChanged LoadConfig evt ap = ap) ∧
    ((AppearancePanel.SetupTree create metadata).m_treebook.m_pages[9]? =
        some ⟨PageWindow.staticText "Select a sub-item", "Metadata"⟩ ∧
      AppearancePanel.OnPageChanged LoadConfig evt
          ⟨(AppearancePanel.SetupTree create metadata).m_treebook.SetSelection 9⟩ =
        ⟨(AppearancePanel.SetupTree create metadata).m_treebook.SetSelection 9⟩) := by
  refine ⟨?_, ?_, ?_, ?_⟩
  · intro panel hcur
    have hsel : ¬ ap.m_treebook.m_selection < 0 := by
      intro hneg
      simp [MyTreebook.GetCurrentPage, hneg] at hcur
    have hpage : ap.m_treebook.m_pages[ap.m_treebook.m_selection.toNat]?.map
        (fun page => page.window) = some (PageWindow.appearanceBase panel) := by
      simpa [MyTreebook.GetCurrentPage, hsel] using hcur
    have hstep : AppearancePanel.OnPageChanged LoadConfig evt ap =
        { ap with m_treebook := { ap.m_treebook with
            m_pages := AppearancePanel.setWindow ap.m_treebook.m_pages
              ap.m_treebook.m_selection.toNat
              (PageWindow.appearanceBase (LoadConfig panel)) } } := by
      simp only [AppearancePanel.OnPageChanged, hcur]
    rw [hstep]
    refine ⟨?_, rfl, ?_⟩
    · simp only [MyTreebook.GetCurrentPage, if_neg hsel, AppearancePanel.setWindow,
        List.getElem?_modify_eq]
      cases hget : ap.m_treebook.m_pages[ap.m_treebook.m_selection.toNat]? with
      | none => simp [hget] at hpage
      | some page => simp
    · intro n hn
      have hne : ap.m_treebook.m_selection.toNat ≠ n := by
        intro heq
        apply hn
        rw [← heq]
        exact Int.toNat_of_nonneg (not_lt.mp hsel)
      simp only [AppearancePanel.setWindow]
      exact List.getElem?_modify_ne _ _ hne
  · intro label hcur
    simp only [AppearancePanel.OnPageChanged, hcur]
  · intro hcur
    simp only [AppearancePanel.OnPageChanged, hcur]
  · have hpages : (AppearancePanel.SetupTree create metadata).m_treebook.m_pages[9]? =
        some ⟨PageWindow.staticText "Select a sub-item", "Metadata"⟩ := by
      simp only [AppearancePanel.SetupTree, MyTreebook.SetSelection, foldl_addSubPage_pages]
      simp [MyTreebook.AddPage, MyTreebook.AddSubPage]
    refine ⟨hpages, ?_⟩
    have hcur : (MyTreebook.SetSelection
        (AppearancePanel.SetupTree create metadata).m_treebook 9).GetCurrentPage =
        some (PageWindow.staticText "Select a sub-item") := by
      simp only [MyTreebook.GetCurrentPage, MyTreebook.SetSelection]
      rw [if_neg (by decide)]
      show Option.map _ ((AppearancePanel.SetupTree create metadata).m_treebook.m_pages[9]?) = _
      rw [hpages]
      rfl
    simp only [AppearancePanel.OnPageChanged, hcur]

/-- Claim C7 on a two-page treebook whose second page is current. -/
theorem onPageChanged_loads_current_page_witness :
    (AppearancePanel.OnPageChanged (fun v : Nat => v + 1) ⟨1, 0⟩
        ⟨⟨[⟨PageWindow.appearanceBase 5, "Global Styles"⟩,
            ⟨PageWindow.appearanceBase 7, "Grid"⟩], 1⟩⟩).m_treebook.GetCurrentPage =
      some (PageWindow.appearanceBase 8) :=
  ((onPageChanged_loads_current_page (fun v : Nat => v + 1) ⟨1, 0⟩
      ⟨⟨[⟨PageWindow.appearanceBase 5, "Global Styles"⟩,
          ⟨PageWindow.appearanceBase 7, "Grid"⟩], 1⟩⟩ (fun _ => 0) []).1 7 (by decide)).1

/-- Claim C2 at the sample flags: "check while typing" alone checked, loaded into
a solve panel with every box checked; the unchecked startup and print boxes
loaded into panels that had them checked. -/
theorem checkbox_roundtrip_witness :
    ((SolvePanel.DoLoadConfig sampleStyle
        (SolvePanel.DoSaveConfig sampleStyle
          { samplePanel with m_checkWhileTyping := ⟨true, true⟩ } sampleConfig)
        fullPanel).m_checkWhileTyping.value = true ∧
      (SolvePanel.DoLoadConfig sampleStyle
        (SolvePanel.DoSaveConfig sampleStyle
          { samplePanel with m_checkWhileTyping := ⟨true, true⟩ } sampleConfig)
        fullPanel).m_strictRebus.value = false) ∧
    ((StartupPanel.DoLoadConfig (StartupPanel.DoSaveConfig sampleStartup sampleConfig)
        fullStartup).m_saveFileHistory.value = false ∧
      (StartupPanel.DoLoadConfig (StartupPanel.DoSaveConfig sampleStartup sampleConfig)
        fullStartup).m_reopenLastPuzzle.value = false) ∧
    (∃ saved, PrintPanel.DoSaveConfig samplePrint sampleConfig = some saved ∧
      (PrintPanel.DoLoadConfig saved fullPrint).m_printCustomFonts.value = false) :=
  ⟨⟨(checkbox_roundtrip sampleStyle sampleStyle_distinct
        { samplePanel with m_checkWhileTyping := ⟨true, true⟩ } fullPanel
        sampleStartup fullStartup samplePrint fullPrint sampleConfig (by decide)).1.2.2.2.1,
      (checkbox_roundtrip sampleStyle sampleStyle_distinct
        { samplePanel with m_checkWhileTyping := ⟨true, true⟩ } fullPanel
        sampleStartup fullStartup samplePrint fullPrint sampleConfig (by decide)).1.2.2.2.2.1⟩,
    (checkbox_roundtrip sampleStyle sampleStyle_distinct
      { samplePanel with m_checkWhileTyping := ⟨true, true⟩ } fullPanel
      sampleStartup fullStartup samplePrint fullPrint sampleConfig (by decide)).2.1,
    (checkbox_roundtrip sampleStyle sampleStyle_distinct
      { samplePanel with m_checkWhileTyping := ⟨true, true⟩ } fullPanel
      sampleStartup fullStartup samplePrint fullPrint sampleConfig (by decide)).2.2⟩

/-- Claim C3 at the selection 2 (bottom left), loaded into a print panel that
showed selection 3. -/
theorem printGridAlignment_roundtrip_witness :
    ∃ saved, PrintPanel.DoSaveConfig
        { samplePrint with m_printGridAlignment := ⟨2, true⟩ } sampleConfig = some saved ∧
      PrintPanel.alignments[2]? = some saved.Printing.gridAlignment ∧
      (PrintPanel.DoLoadConfig saved fullPrint).m_printGridAlignment.selection = 2 :=
  printGridAlignment_roundtrip { samplePrint with m_printGridAlignment := ⟨2, true⟩ }
    fullPrint sampleConfig (by decide) (by decide)

/-- Claim C6 at the sample flags: checking "blank on direction" changes exactly
the bit 0x10, and selecting item 1 of pause-on-switch exactly the bit 0x1. -/
theorem save_bits_independent_witness :
    Int.xor (SolvePanel.DoSaveConfig sampleStyle samplePanel sampleConfig).Grid.style
        (SolvePanel.DoSaveConfig sampleStyle
          { samplePanel with m_blankOnDirection := ⟨true, true⟩ } sampleConfig).Grid.style
        = 0x10 ∧
    Int.xor (SolvePanel.DoSaveConfig sampleStyle samplePanel sampleConfig).Grid.style
        (SolvePanel.DoSaveConfig sampleStyle
          { samplePanel with m_pauseOnSwitch := ⟨1, true⟩ } sampleConfig).Grid.style
        = 0x1 :=
  ⟨(save_bits_independent sampleStyle sampleStyle_distinct samplePanel sampleConfig
      ⟨true, true⟩ ⟨1, true⟩).1 (by decide),
    (save_bits_independent sampleStyle sampleStyle_distinct samplePanel sampleConfig
      ⟨true, true⟩ ⟨1, true⟩).2.2.1 (by decide) (by decide) (by decide)⟩

/-- Claim C10 at the sample flags and the stored style 0x38: the bit 0x20 is no
flag and `MOVE_TO_NEXT_BLANK` (0x8) is set without `MOVE_AFTER_LETTER`, so 0x10
is written back, and again by a second Load-then-Save. -/
theorem load_save_normalises_witness :
    (SolvePanel.DoSaveConfig sampleStyle
      (SolvePanel.DoLoadConfig sampleStyle { sampleConfig with Grid := ⟨0x38⟩ } samplePanel)
      { sampleConfig with Grid := ⟨0x38⟩ }).Grid.style = 0x10 ∧
    (SolvePanel.DoSaveConfig sampleStyle
      (SolvePanel.DoLoadConfig sampleStyle
        (SolvePanel.DoSaveConfig sampleStyle
          (SolvePanel.DoLoadConfig sampleStyle { sampleConfig with Grid := ⟨0x38⟩ } samplePanel)
          { sampleConfig with Grid := ⟨0x38⟩ })
        (SolvePanel.DoLoadConfig sampleStyle { sampleConfig with Grid := ⟨0x38⟩ } samplePanel))
      (SolvePanel.DoSaveConfig sampleStyle
        (SolvePanel.DoLoadConfig sampleStyle { sampleConfig with Grid := ⟨0x38⟩ } samplePanel)
        { sampleConfig with Grid := ⟨0x38⟩ })).Grid.style = 0x10 :=
  ⟨by decide,
    (load_save_normalises sampleStyle sampleStyle_distinct
      { sampleConfig with Grid := ⟨0x38⟩ } samplePanel).2.2.trans (by decide)⟩

end XWord
